import Mathlib

/-!
Shallow embedding of the EasyPay autonomous-kiosk backend
(`src/routes/deposits.js` transfer route, `src/routes/bills.js`,
`src/routes/auth.js`, `src/middleware/auth.js`, `src/middleware/security.js`,
`src/services/easypay-service.js`, and the database `transaction` helper).

Amounts are modelled as integers (the routes use `parseFloat`; no claim here
depends on rounding).  External calls (EasyPay processor, bcrypt, the face
verifier) are modelled by passing their outcome as an explicit argument.
-/

namespace EasyPay

/-! ## Ledger: transaction records and balance (transfer / bill-payment routes) -/

/-- A row of the `transactions` table, with the columns the transfer and
bill-payment routes read or write. -/
structure TxRecord where
  id : String
  userId : Nat
  txType : String
  amount : Int
  currency : String
  status : String
  recipientAccount : Option String
  recipientName : Option String
  billProvider : Option String
  billAccountNumber : Option String
  description : String
  errorMessage : Option String
  easypayTxId : Option String
  referenceNumber : Option String
  completed : Bool
deriving Repr, DecidableEq

/-- The durable state a money-movement route touches: the calling user's
balance (`users.balance`) and the `transactions` table. -/
structure LedgerState where
  balance : Int
  transactions : List TxRecord
deriving Repr, DecidableEq

/-- `SELECT * FROM transactions WHERE id = $1`. -/
def findTx (s : LedgerState) (id : String) : Option TxRecord :=
  s.transactions.find? (fun t => t.id == id)

/-- `UPDATE transactions SET ... WHERE id = $1`. -/
def updateTx (s : LedgerState) (id : String) (f : TxRecord → TxRecord) : LedgerState :=
  { s with transactions := s.transactions.map (fun t => if t.id == id then f t else t) }

/-- The database `transaction` helper (`BEGIN`/`COMMIT`/`ROLLBACK`,
`src/config/database.js`): on a thrown error the state reverts to the
snapshot taken at `BEGIN`. -/
def dbTransaction (s : LedgerState) (body : LedgerState → Except String LedgerState) :
    Except String Unit × LedgerState :=
  match body s with
  | .ok s' => (.ok (), s')
  | .error e => (.error e, s)

/-- Result object returned by `createSepaTransfer` / `processBillPayment`
on success. -/
structure ProcessorResult where
  transactionId : String
  status : String
  reference : String
deriving Repr, DecidableEq

/-- Response of the transfer / bill-payment endpoints, as seen by the client. -/
inductive MoneyMoveResponse where
  | success (tx : TxRecord) (newBalance : Int)
  | insufficientBalance
  | providerNotFound
  | serverError (msg : String)
deriving Repr, DecidableEq

/-- The fresh `PENDING` row inserted by `POST /api/transfers/send`. -/
def pendingTransferRecord (txId : String) (userId : Nat) (amount : Int)
    (currency recipientAccount recipientName description : String) : TxRecord :=
  { id := txId, userId := userId, txType := "TRANSFER", amount := amount,
    currency := currency, status := "PENDING",
    recipientAccount := some recipientAccount, recipientName := some recipientName,
    billProvider := none, billAccountNumber := none, description := description,
    errorMessage := none, easypayTxId := none, referenceNumber := none,
    completed := false }

/-- Body of the `transaction(async (client) => ...)` block of
`POST /api/transfers/send`: insert the `PENDING` row, debit the balance,
call EasyPay; on success update the row with the processor details; on
failure credit the balance back, mark the row `FAILED` with the error
message, and re-throw the processor error (`throw easypayError`).  The
thrown error carries no state: the caller's `ROLLBACK` discards the
compensation writes along with everything else. -/
def transferBody (txId : String) (userId : Nat) (amount : Int)
    (currency recipientAccount recipientName description : String)
    (processor : Except String ProcessorResult)
    (s0 : LedgerState) : Except String LedgerState :=
  let s1 := { s0 with transactions := s0.transactions ++
    [pendingTransferRecord txId userId amount currency recipientAccount recipientName description] }
  let s2 := { s1 with balance := s1.balance - amount }
  match processor with
  | .ok r =>
      .ok (updateTx s2 txId (fun t =>
        { t with status := r.status, easypayTxId := some r.transactionId,
                 referenceNumber := some r.reference, completed := true }))
  | .error e =>
      let s3 := { s2 with balance := s2.balance + amount }
      let _s4 := updateTx s3 txId (fun t =>
        { t with status := "FAILED", errorMessage := some e })
      .error e

/-- `POST /api/transfers/send`: balance pre-check, then the database
transaction around debit + processor call; the route's outer `catch`
turns a thrown processor error into a 500 response. -/
def transferSend (s : LedgerState) (txId : String) (userId : Nat) (amount : Int)
    (currency recipientAccount recipientName description : String)
    (processor : Except String ProcessorResult) : MoneyMoveResponse × LedgerState :=
  if s.balance < amount then
    (.insufficientBalance, s)
  else
    match dbTransaction s
        (transferBody txId userId amount currency recipientAccount recipientName
          description processor) with
    | (.ok _, s') =>
        match findTx s' txId with
        | some tx => (.success tx s'.balance, s')
        | none => (.serverError "transaction missing", s')
    | (.error e, s') => (.serverError e, s')

/-- A row of the `bill_providers` table. -/
structure BillProvider where
  code : String
  name : String
  isActive : Bool
deriving Repr, DecidableEq

/-- The fresh `PENDING` row inserted by `POST /api/bills/pay`. -/
def pendingBillRecord (txId : String) (userId : Nat) (amount : Int)
    (currency providerCode billAccountNumber description : String) : TxRecord :=
  { id := txId, userId := userId, txType := "BILL_PAYMENT", amount := amount,
    currency := currency, status := "PENDING",
    recipientAccount := none, recipientName := none,
    billProvider := some providerCode, billAccountNumber := some billAccountNumber,
    description := description, errorMessage := none, easypayTxId := none,
    referenceNumber := none, completed := false }

/-- Body of the database transaction of `POST /api/bills/pay`; same shape as
`transferBody` with the bill-payment columns. -/
def billPayBody (txId : String) (userId : Nat) (amount : Int)
    (currency providerCode billAccountNumber description : String)
    (processor : Except String ProcessorResult)
    (s0 : LedgerState) : Except String LedgerState :=
  let s1 := { s0 with transactions := s0.transactions ++
    [pendingBillRecord txId userId amount currency providerCode billAccountNumber description] }
  let s2 := { s1 with balance := s1.balance - amount }
  match processor with
  | .ok r =>
      .ok (updateTx s2 txId (fun t =>
        { t with status := r.status, easypayTxId := some r.transactionId,
                 referenceNumber := some r.reference, completed := true }))
  | .error e =>
      let s3 := { s2 with balance := s2.balance + amount }
      let _s4 := updateTx s3 txId (fun t =>
        { t with status := "FAILED", errorMessage := some e })
      .error e

/-- `POST /api/bills/pay`: balance pre-check, provider lookup
(`WHERE provider_code = $1 AND is_active = true`), then the database
transaction around debit + processor call. -/
def billPaySend (s : LedgerState) (providers : List BillProvider)
    (txId : String) (userId : Nat) (amount : Int)
    (currency providerCode billAccountNumber description : String)
    (processor : Except String ProcessorResult) : MoneyMoveResponse × LedgerState :=
  if s.balance < amount then
    (.insufficientBalance, s)
  else
    match providers.find? (fun p => p.code == providerCode && p.isActive) with
    | none => (.providerNotFound, s)
    | some _ =>
        match dbTransaction s
            (billPayBody txId userId amount currency providerCode billAccountNumber
              description processor) with
        | (.ok _, s') =>
            match findTx s' txId with
            | some tx => (.success tx s'.balance, s')
            | none => (.serverError "transaction missing", s')
        | (.error e, s') => (.serverError e, s')

/-! ## Payment-processor client (`src/services/easypay-service.js`) -/

/-- An error from an EasyPay API call: `status = some n` models
`error.response.status` (an HTTP response was received), `status = none`
models a timeout / no response. -/
structure ApiError where
  status : Option Nat
  msg : String
deriving Repr, DecidableEq

/-- `retryRequest` loop: attempt `i` runs `f i`; on failure at the last
attempt the error is thrown, otherwise the loop sleeps
`RETRY_DELAY * 2 ^ i` ms and retries.  Returns the final outcome and the
list of backoff delays actually slept. -/
def retryRun (f : Nat → Except ApiError α) : Nat → Nat → Except ApiError α × List Nat
  | 0, _ => (.error { status := none, msg := "no attempts" }, [])
  | 1, i => (f i, [])
  | n + 2, i =>
      match f i with
      | .ok a => (.ok a, [])
      | .error _ =>
          let d := 1000 * 2 ^ i
          let (r, ds) := retryRun f (n + 1) (i + 1)
          (r, d :: ds)

/-- `retryRequest(requestFn, retries = MAX_RETRIES)` with `MAX_RETRIES = 3`. -/
def retryRequest (f : Nat → Except ApiError α) (retries : Nat := 3) :
    Except ApiError α × List Nat :=
  retryRun f retries 0

/-! ## Outbound request payloads (`createSepaTransfer` / `processBillPayment`) -/

/-- The `transferData` object `createSepaTransfer` posts to
`/transfers/sepa` (field for field). -/
structure SepaTransferData where
  from_account : String
  to_account : String
  amount : Int
  currency : String
  recipient_name : String
  description : String
  reference : String
  transaction_type : String
  timestamp : String
deriving Repr, DecidableEq

/-- `createSepaTransfer`'s construction of `transferData`. -/
def mkSepaTransferData (fromAccount toAccount : String) (amount : Int)
    (currency recipientName description reference timestamp : String) :
    SepaTransferData :=
  { from_account := fromAccount, to_account := toAccount, amount := amount,
    currency := currency, recipient_name := recipientName,
    description := description, reference := reference,
    transaction_type := "SEPA_TRANSFER", timestamp := timestamp }

/-- The `paymentData` object `processBillPayment` posts to `/bills/pay`
(field for field — it has no reference / transaction-id field). -/
structure BillPaymentData where
  from_account : String
  provider_code : String
  bill_account_number : String
  amount : Int
  currency : String
  description : String
  transaction_type : String
  timestamp : String
deriving Repr, DecidableEq

/-- `processBillPayment`'s construction of `paymentData`. -/
def mkBillPaymentData (fromAccount providerCode billAccountNumber : String)
    (amount : Int) (currency description timestamp : String) : BillPaymentData :=
  { from_account := fromAccount, provider_code := providerCode,
    bill_account_number := billAccountNumber, amount := amount,
    currency := currency, description := description,
    transaction_type := "BILL_PAYMENT", timestamp := timestamp }

/-- The request `POST /api/transfers/send` sends to the processor: the route
calls `createSepaTransfer` with `reference: transactionId`. -/
def transferOutboundRequest (userAccount recipientAccount : String) (amount : Int)
    (currency recipientName description transactionId timestamp : String) :
    SepaTransferData :=
  mkSepaTransferData userAccount recipientAccount amount currency recipientName
    description transactionId timestamp

/-- The request `POST /api/bills/pay` sends to the processor: the route calls
`processBillPayment` with `fromAccount`, `providerCode`, `billAccountNumber`,
`amount`, `currency`, `description` — the local `transactionId`, although in
scope, is not passed. -/
def billPayOutboundRequest (userAccount providerCode billAccountNumber : String)
    (amount : Int) (currency description : String) (transactionId : String)
    (timestamp : String) : BillPaymentData :=
  let _ := transactionId
  mkBillPaymentData userAccount providerCode billAccountNumber amount currency
    description timestamp

/-- Whether some field of a SEPA transfer request equals the given id
(the request "carries" the id). -/
def SepaTransferData.carries (r : SepaTransferData) (txId : String) : Bool :=
  r.from_account == txId || r.to_account == txId || r.currency == txId ||
  r.recipient_name == txId || r.description == txId || r.reference == txId ||
  r.transaction_type == txId || r.timestamp == txId

/-- Whether some field of a bill-payment request equals the given id. -/
def BillPaymentData.carries (r : BillPaymentData) (txId : String) : Bool :=
  r.from_account == txId || r.provider_code == txId ||
  r.bill_account_number == txId || r.currency == txId || r.description == txId ||
  r.transaction_type == txId || r.timestamp == txId

/-! ## Authentication (`POST /api/auth/verify`, `src/routes/auth.js`) -/

/-- The columns of a `users` row read or written by the login route. -/
structure AuthUser where
  egn : String
  pinHash : String
  isActive : Bool
  failedLoginAttempts : Nat
  fullName : String
  accountNumber : String
  balance : Int
deriving Repr, DecidableEq

/-- Response of the face-verification microservice (`verifyFace`). -/
structure FaceResult where
  verified : Bool
  confidence : Int
deriving Repr, DecidableEq

/-- Outcome of `POST /api/auth/verify` as seen by the client. -/
inductive LoginOutcome where
  | success (token : String)
  | invalidCredentials
  | accountDeactivated
  | accountLocked
  | faceVerificationFailed (confidence : Int)
deriving Repr, DecidableEq

/-- `bcrypt.compare(pin, user.pin_hash)` modelled as: the hash matches
exactly the PIN it was derived from. -/
def bcryptCompare (pin pinHash : String) : Bool :=
  pin == pinHash

/-- `generateToken(user.id, user.egn)`: mints a JWT. -/
def generateToken (egn : String) : String :=
  "jwt." ++ egn

/-- The `POST /api/auth/verify` handler for a user found by EGN.  `face` is
`none` when no `face_image` was submitted, `some (.ok r)` when the verifier
answered `r`, and `some (.error e)` when the verifier call threw (service
unreachable) — in that last case the code logs a warning and proceeds with
the login. -/
def loginStep (u : AuthUser) (pin : String)
    (face : Option (Except String FaceResult)) : LoginOutcome × AuthUser :=
  if u.isActive = false then
    (.accountDeactivated, u)
  else if 5 ≤ u.failedLoginAttempts then
    (.accountLocked, u)
  else if bcryptCompare pin u.pinHash = false then
    (.invalidCredentials, { u with failedLoginAttempts := u.failedLoginAttempts + 1 })
  else
    match face with
    | some (.ok r) =>
        if r.verified = false then
          (.faceVerificationFailed r.confidence,
           { u with failedLoginAttempts := u.failedLoginAttempts + 1 })
        else
          (.success (generateToken u.egn), { u with failedLoginAttempts := 0 })
    | some (.error _) =>
        (.success (generateToken u.egn), { u with failedLoginAttempts := 0 })
    | none =>
        (.success (generateToken u.egn), { u with failedLoginAttempts := 0 })

/-- Whether a login outcome issued a session token. -/
def LoginOutcome.issuedToken : LoginOutcome → Bool
  | .success _ => true
  | _ => false

/-- The face factor as the login code accepts it: no image, a `verified`
response, or a thrown verifier error. -/
def faceAccepted : Option (Except String FaceResult) → Bool
  | none => true
  | some (.ok r) => r.verified
  | some (.error _) => true

/-- `n` consecutive login attempts with the same PIN and no face image,
threading the user state. -/
def loginAttempts (u : AuthUser) (pin : String) : Nat → AuthUser
  | 0 => u
  | n + 1 => (loginStep (loginAttempts u pin n) pin none).2

/-! ## EGN validator (`validateEGN`, `src/middleware/validation.js`) -/

/-- Weights of the EGN checksum. -/
def egnWeights : List Nat := [2, 4, 8, 5, 10, 9, 7, 3, 6]

/-- The weighted mod-11 checksum over the first nine digits, with remainder
10 mapped to 0. -/
def egnChecksum (ds : List Nat) : Nat :=
  let sum := (List.zipWith (· * ·) (ds.take 9) egnWeights).sum
  if sum % 11 = 10 then 0 else sum % 11

/-- The digits of an EGN string, when it matches `^\d{10}$`. -/
def egnDigits (egn : String) : Option (List Nat) :=
  let cs := egn.toList
  if cs.length == 10 && cs.all Char.isDigit then
    some (cs.map (fun c => c.toNat - 48))
  else
    none

/-- `validateEGN`: ten digits whose checksum equals the tenth digit. -/
def validateEGN (egn : String) : Bool :=
  match egnDigits egn with
  | none => false
  | some ds => egnChecksum ds == ds.getD 9 0

/-- Replace the check digit (the tenth character) of a string. -/
def setCheckDigit (egn : String) (d : Nat) : String :=
  String.mk (egn.toList.take 9 ++ [Char.ofNat (48 + d)])

/-! ## Session middleware (`verifyToken`, `src/middleware/auth.js`) -/

/-- A JWT as the middleware sees it: `userId` is the payload claim
`jwt.verify` decodes; `nonce` stands for the parts of the serialized token
(issued-at, signature) that differ between two tokens of the same user. -/
structure Token where
  userId : Nat
  nonce : Nat
deriving Repr, DecidableEq

/-- `crypto.createHash('sha256').update(token).digest('hex')`, modelled as
an injective digest of the serialized token. -/
def hashToken (t : Token) : Nat × Nat :=
  (t.userId, t.nonce)

/-- A row of the `sessions` table. -/
structure Session where
  id : Nat
  userId : Nat
  tokenHash : Nat × Nat
  expiresAt : Nat
  createdAt : Nat
  lastActivityAt : Nat
deriving Repr, DecidableEq

/-- The user columns the session query joins in. -/
structure SessionUser where
  isActive : Bool
  egn : String
  fullName : String
deriving Repr, DecidableEq

/-- State the middleware touches: the `sessions` table and the `users`
rows it joins. -/
structure AuthState where
  sessions : List Session
  users : List (Nat × SessionUser)
deriving Repr, DecidableEq

/-- Outcome of the `verifyToken` middleware. -/
inductive VerifyOutcome where
  | ok (userId : Nat) (egn fullName : String)
  | sessionExpired
  | accountDeactivated
deriving Repr, DecidableEq

/-- `ORDER BY s.created_at DESC LIMIT 1` over a candidate list. -/
def pickLatest : List Session → Option Session
  | [] => none
  | s :: rest =>
      match pickLatest rest with
      | none => some s
      | some best => if best.createdAt ≤ s.createdAt then some s else some best

/-- `SELECT ... FROM users WHERE id = ...` via the join. -/
def lookupUser (st : AuthState) (uid : Nat) : Option SessionUser :=
  (st.users.find? (fun p => p.1 == uid)).map Prod.snd

/-- The rows matched by the middleware's query
`SELECT s.*, u.is_active, u.egn, u.full_name FROM sessions s JOIN users u
ON s.user_id = u.id WHERE s.user_id = $1 AND s.expires_at > NOW()`:
the lookup key is the decoded `userId`, not the token hash. -/
def sessionCandidates (st : AuthState) (uid now : Nat) : List Session :=
  st.sessions.filter
    (fun s => s.userId == uid && decide (now < s.expiresAt) &&
      (lookupUser st s.userId).isSome)

/-- The `verifyToken` middleware: decode the JWT, run the session query
(`ORDER BY s.created_at DESC LIMIT 1` over the candidates), reject when no
row matches or the user is deactivated; otherwise refresh
`last_activity_at` and attach the user context. -/
def verifyTokenStep (st : AuthState) (tok : Token) (now : Nat) :
    VerifyOutcome × AuthState :=
  match pickLatest (sessionCandidates st tok.userId now) with
  | none => (.sessionExpired, st)
  | some sess =>
      match lookupUser st sess.userId with
      | none => (.sessionExpired, st)
      | some u =>
          if u.isActive = false then
            (.accountDeactivated, st)
          else
            (.ok tok.userId u.egn u.fullName,
             { st with sessions := st.sessions.map (fun s =>
                 if s.id == sess.id then { s with lastActivityAt := now } else s) })

/-- A bill-payment request whose first attempt fails with an HTTP 422
validation error and whose second attempt succeeds. -/
def api4xxThenOk : Nat → Except ApiError Nat := fun i =>
  if i = 0 then .error { status := some 422, msg := "Validation failed" } else .ok 99

/-- A request that always fails with an HTTP 400 error. -/
def apiAlways400 : Nat → Except ApiError Nat := fun _ =>
  .error { status := some 400, msg := "Bad request" }

/-- The claim's face condition, worded from the spec: no face image was
supplied, or the face verifier returned `verified = true`. -/
def specFaceCondition : Option (Except String FaceResult) → Bool
  | none => true
  | some (.ok r) => r.verified
  | some (.error _) => false

/-- A face-verifier call that threw (service unreachable). -/
def faceServiceDown : Option (Except String FaceResult) := some (.error "ECONNREFUSED")

/-- A registered, active user with PIN credential `1234` and no failed
attempts. -/
def demoUser : AuthUser :=
  { egn := "7523169263", pinHash := "1234", isActive := true,
    failedLoginAttempts := 0, fullName := "Ivan Petrov",
    accountNumber := "BG80BNBG96611020345678", balance := 1000 }

end EasyPay

namespace EasyPay

/-! ## Theorems -/

/-- Claim C1. The claim asserts that on processor failure the transaction
record ends `FAILED` with the error detail populated.  The code does write
that update, but then re-throws inside the `transaction` wrapper, whose
`ROLLBACK` erases the `PENDING` insert, the debit, the compensating credit
and the `FAILED` update alike: at the failing input (balance 1000, transfer
250, processor throws) the final balance is the pre-transfer balance and a
user-facing error is returned, but **no transaction record with that id
exists at all** — contradicting the code's own compensation logic and the
claim. -/
theorem transfer_processor_failure_leaves_no_record :
    (transferSend ⟨1000, []⟩ "tx-1" 1 250 "BGN" "BG80BNBG96611020345678"
        "Ivan Petrov" "" (.error "EasyPay timeout")).2.balance = 1000 ∧
    (transferSend ⟨1000, []⟩ "tx-1" 1 250 "BGN" "BG80BNBG96611020345678"
        "Ivan Petrov" "" (.error "EasyPay timeout")).1 =
      .serverError "EasyPay timeout" ∧
    findTx (transferSend ⟨1000, []⟩ "tx-1" 1 250 "BGN" "BG80BNBG96611020345678"
        "Ivan Petrov" "" (.error "EasyPay timeout")).2 "tx-1" = none :=
  ⟨rfl, rfl, rfl⟩

/-- Claim C2. The claim asserts that the `PENDING` record survives every
remote outcome.  On a thrown processor error the `ROLLBACK` of the
enclosing database transaction removes the freshly inserted record: at the
failing input (bill payment of 80 against an active provider, processor
throws) no transaction record with the local id exists afterwards. -/
theorem billpay_processor_failure_erases_pending_record :
    findTx (billPaySend ⟨1000, []⟩ [⟨"ELEC", "ElectroBG", true⟩] "tx-2" 1 80
        "BGN" "ELEC" "B123" "" (.error "Payment failed")).2 "tx-2" = none ∧
    (billPaySend ⟨1000, []⟩ [⟨"ELEC", "ElectroBG", true⟩] "tx-2" 1 80
        "BGN" "ELEC" "B123" "" (.error "Payment failed")).1 =
      .serverError "Payment failed" ∧
    findTx (transferSend ⟨1000, []⟩ "tx-3" 1 80 "BGN" "BG80BNBG96611020345678"
        "Ivan Petrov" "" (.error "timeout")).2 "tx-3" = none :=
  ⟨rfl, rfl, rfl⟩

/-- Claim C4. When the user's balance is strictly below the requested amount
the transfer endpoint answers `Insufficient balance` and returns with the
state untouched: the balance is unchanged and no transaction record is
created or marked `COMPLETED`. -/
theorem transfer_insufficient_funds_no_side_effects
    (s : LedgerState) (txId : String) (userId : Nat) (amount : Int)
    (currency recipientAccount recipientName description : String)
    (processor : Except String ProcessorResult)
    (h : s.balance < amount) :
    transferSend s txId userId amount currency recipientAccount recipientName
      description processor = (.insufficientBalance, s) := by
  simp [transferSend, h]

/-- Witness for C4: balance 500, requested transfer 2000. -/
theorem transfer_insufficient_funds_no_side_effects_witness :
    (500 : Int) < 2000 ∧
    transferSend ⟨500, []⟩ "tx-w4" 1 2000 "BGN" "BG80BNBG96611020345678"
      "Ivan Petrov" "" (.ok ⟨"EP1", "COMPLETED", "R1"⟩) =
      (.insufficientBalance, ⟨500, []⟩) :=
  ⟨by decide,
   transfer_insufficient_funds_no_side_effects _ _ _ _ _ _ _ _ _ (by decide)⟩

/-- Claim C5, counterexample. The outbound bill-payment request built for
local transaction id `tx-A` is identical to the one built for `tx-B`, and
none of its fields equals the local id: bill payments carry no
idempotency/reference key, contrary to the claim that *every* money-moving
outbound call does. -/
theorem billpay_request_omits_transaction_id :
    billPayOutboundRequest "BG80BNBG96611020345678" "ELEC" "B123" 50 "BGN" ""
        "tx-A" "2025-01-01T00:00:00Z" =
      billPayOutboundRequest "BG80BNBG96611020345678" "ELEC" "B123" 50 "BGN" ""
        "tx-B" "2025-01-01T00:00:00Z" ∧
    ("tx-A" : String) ≠ "tx-B" ∧
    (billPayOutboundRequest "BG80BNBG96611020345678" "ELEC" "B123" 50 "BGN" ""
        "tx-A" "2025-01-01T00:00:00Z").carries "tx-A" = false :=
  ⟨rfl, by decide, by decide⟩

/-- Claim C5 as amended. The SEPA-transfer initiation carries the local
transaction id in its `reference` field, but the bill-payment request has
no field carrying the local transaction id: it is the same for every local
id. -/
theorem transfer_carries_reference_billpay_does_not
    (userAccount recipientAccount : String) (amount : Int)
    (currency recipientName description txId ts : String)
    (pAcc pCode pBan : String) (pAmount : Int) (pCur pDesc pTs : String) :
    (transferOutboundRequest userAccount recipientAccount amount currency
        recipientName description txId ts).reference = txId ∧
    (transferOutboundRequest userAccount recipientAccount amount currency
        recipientName description txId ts).carries txId = true ∧
    (∀ txA txB : String,
      billPayOutboundRequest pAcc pCode pBan pAmount pCur pDesc txA pTs =
        billPayOutboundRequest pAcc pCode pBan pAmount pCur pDesc txB pTs) := by
  refine ⟨rfl, ?_, fun _ _ => rfl⟩
  simp [SepaTransferData.carries, transferOutboundRequest, mkSepaTransferData]

/-- Claim C6, counterexample. A request whose first attempt fails with an HTTP
422 validation error (non-transient under the claim's taxonomy) is retried
after a 1000 ms backoff and its second attempt's success is returned: the
4xx failure is neither surfaced immediately nor exempt from retry.  A
constant HTTP 400 failure is likewise attempted three times, with backoff
delays 1000 and 2000 ms, before the error is surfaced. -/
theorem fourxx_failures_are_retried :
    retryRequest api4xxThenOk = (.ok 99, [1000]) ∧
    retryRequest apiAlways400 =
      (.error { status := some 400, msg := "Bad request" }, [1000, 2000]) :=
  ⟨rfl, rfl⟩

/-- Claim C6 as amended. The retry helper distinguishes no error classes: every
failure, transient or not, is retried with exponential backoff (delay
`1000 * 2 ^ i` ms after attempt `i`) up to the ceiling of 3 attempts, and
the error surfaced to the caller is that of the final attempt. -/
theorem retryRequest_retries_all_failures {α : Type} (f : Nat → Except ApiError α)
    (e0 e1 e2 : ApiError)
    (h0 : f 0 = .error e0) (h1 : f 1 = .error e1) (h2 : f 2 = .error e2) :
    retryRequest f = (.error e2, [1000, 2000]) := by
  simp [retryRequest, retryRun, h0, h1, h2]

/-- Witness for the amended C6: a constant 500-error request is surfaced
after three attempts with delays 1000 and 2000 ms. -/
theorem retryRequest_retries_all_failures_witness :
    retryRequest (fun _ => (.error { status := some 503, msg := "Service unavailable" }
        : Except ApiError Nat)) =
      (.error { status := some 503, msg := "Service unavailable" }, [1000, 2000]) :=
  retryRequest_retries_all_failures _ _ _ _ rfl rfl rfl

/-- Claim C3, counterexample. An active, unlocked user submits the correct PIN
*and a face image*, and the verifier call throws (service unreachable): the
code issues a session token although the verifier did not return
`verified = true`, so "token if and only if PIN ∧ (no face ∨ verified) ∧
active ∧ not locked" fails in the only-if direction. -/
theorem login_token_despite_face_unverified :
    (loginStep demoUser "1234" faceServiceDown).1.issuedToken = true ∧
    specFaceCondition faceServiceDown = false :=
  ⟨rfl, rfl⟩

/-- Claim C3 as amended. `login` returns a session token if and only if the PIN
matches, the account is active, the failed-attempt counter is below 5, and
the face factor is accepted — where the face factor is accepted when no
image was supplied, **or** the verifier returned `verified = true`, **or**
the verifier call threw (the code proceeds without the face factor when the
service is unreachable). -/
theorem login_token_iff (u : AuthUser) (pin : String)
    (face : Option (Except String FaceResult)) :
    (loginStep u pin face).1.issuedToken =
      (bcryptCompare pin u.pinHash && u.isActive &&
        decide (u.failedLoginAttempts < 5) && faceAccepted face) := by
  by_cases h1 : u.isActive = false
  · simp [loginStep, h1, LoginOutcome.issuedToken]
  · have h1' : u.isActive = true := by simpa using h1
    by_cases h2 : 5 ≤ u.failedLoginAttempts
    · have hnl : ¬ u.failedLoginAttempts < 5 := Nat.not_lt.mpr h2
      simp [loginStep, h1', h2, hnl, LoginOutcome.issuedToken]
    · have hlt : u.failedLoginAttempts < 5 := Nat.lt_of_not_le h2
      by_cases h3 : bcryptCompare pin u.pinHash = false
      · simp [loginStep, h1', h2, h3, LoginOutcome.issuedToken]
      · have h3' : bcryptCompare pin u.pinHash = true := by simpa using h3
        rcases face with _ | f
        · simp [loginStep, h1', h2, h3', hlt, faceAccepted, LoginOutcome.issuedToken]
        · rcases f with e | r
          · simp [loginStep, h1', h2, h3', hlt, faceAccepted,
              LoginOutcome.issuedToken]
          · by_cases hv : r.verified = false
            · simp [loginStep, h1', h2, h3', hlt, hv, faceAccepted,
                LoginOutcome.issuedToken]
            · have hv' : r.verified = true := by simpa using hv
              simp [loginStep, h1', h2, h3', hlt, hv', faceAccepted,
                LoginOutcome.issuedToken]

/-- An active user with no failed attempts, for the lockout scenario. -/
def lockoutUser : AuthUser :=
  { egn := "0048088.", pinHash := "4321", isActive := true,
    failedLoginAttempts := 0, fullName := "Maria Georgieva",
    accountNumber := "BG11UNCR70001512345678", balance := 500 }

/-- Claim C7. Starting from an active account with a zero failed-attempt
counter, five consecutive login attempts with a wrong PIN drive the counter
to the threshold, and the sixth attempt **with the correct PIN** is still
rejected by the lock check, which runs before the PIN comparison. -/
theorem lockout_sixth_attempt_with_correct_pin
    (u : AuthUser) (wrongPin : String)
    (hact : u.isActive = true) (h0 : u.failedLoginAttempts = 0)
    (hw : bcryptCompare wrongPin u.pinHash = false) :
    loginAttempts u wrongPin 5 = { u with failedLoginAttempts := 5 } ∧
    (loginStep (loginAttempts u wrongPin 5) u.pinHash none).1 = .accountLocked := by
  have step : ∀ v : AuthUser, v.isActive = true → v.pinHash = u.pinHash →
      v.failedLoginAttempts < 5 →
      (loginStep v wrongPin none).2 =
        { v with failedLoginAttempts := v.failedLoginAttempts + 1 } := by
    intro v hv hp hlt
    simp [loginStep, hv, Nat.not_le.mpr hlt, hp, hw]
  have key : ∀ n, n ≤ 5 → loginAttempts u wrongPin n =
      { u with failedLoginAttempts := n } := by
    intro n hn
    induction n with
    | zero =>
        have heta : ({ u with failedLoginAttempts := 0 } : AuthUser) = u := by
          rw [← h0]
        simpa [loginAttempts] using heta.symm
    | succ k ih =>
        have hk : k ≤ 5 := Nat.le_of_succ_le hn
        have hk5 : k < 5 := Nat.lt_of_succ_le hn
        show (loginStep (loginAttempts u wrongPin k) wrongPin none).2 = _
        rw [ih hk, step { u with failedLoginAttempts := k } hact rfl hk5]
  have h5 := key 5 (Nat.le_refl 5)
  refine ⟨h5, ?_⟩
  rw [h5]
  simp [loginStep, hact]

/-- Witness for C7: user `lockoutUser`, wrong PIN `0000`, correct PIN
`4321`. -/
theorem lockout_sixth_attempt_with_correct_pin_witness :
    loginAttempts lockoutUser "0000" 5 =
      { lockoutUser with failedLoginAttempts := 5 } ∧
    (loginStep (loginAttempts lockoutUser "0000" 5) lockoutUser.pinHash none).1 =
      .accountLocked :=
  lockout_sixth_attempt_with_correct_pin lockoutUser "0000" rfl rfl (by decide)

/-- An active user whose failed-attempt counter has reached the
threshold. -/
def lockedUser : AuthUser :=
  { egn := "0048088.", pinHash := "1234", isActive := true,
    failedLoginAttempts := 5, fullName := "Petar Dimitrov",
    accountNumber := "BG22STSA93001122334455", balance := 200 }

/-- Claim C10. Once the failed-attempt counter is at or above 5, `login`
leaves the user row entirely unchanged — in particular the counter never
decreases, because the reset to 0 sits after the lock check — and, for an
active account, every attempt answers `AccountLocked` whatever the PIN and
whatever the face factor.  (`login` is the only authentication-route
operation that writes the counter.) -/
theorem locked_account_lock_is_permanent
    (u : AuthUser) (pin : String) (face : Option (Except String FaceResult))
    (h : 5 ≤ u.failedLoginAttempts) :
    (loginStep u pin face).2 = u ∧
    (u.isActive = true → (loginStep u pin face).1 = .accountLocked) := by
  by_cases ha : u.isActive = false
  · simp [loginStep, ha]
  · have ha' : u.isActive = true := by simpa using ha
    simp [loginStep, ha', h]

/-- Witness for C10: the locked user with the *correct* PIN and no face
image. -/
theorem locked_account_lock_is_permanent_witness :
    (loginStep lockedUser "1234" none).2 = lockedUser ∧
    (lockedUser.isActive = true →
      (loginStep lockedUser "1234" none).1 = .accountLocked) :=
  locked_account_lock_is_permanent lockedUser "1234" none (by decide)

/-- A state with one unexpired session for user 7, whose stored hash is the
digest of the token with nonce 1. -/
def sessionStateA : AuthState :=
  { sessions := [{ id := 1, userId := 7, tokenHash := hashToken ⟨7, 1⟩,
                   expiresAt := 100, createdAt := 10, lastActivityAt := 10 }],
    users := [(7, { isActive := true, egn := "7523169263",
                    fullName := "Ivan Petrov" })] }

/-- A different token of user 7: same decoded user id, different serialized
token, hence a different digest. -/
def presentedToken : Token := ⟨7, 2⟩

/-- The element picked by `ORDER BY created_at DESC LIMIT 1` comes from the
candidate list. -/
theorem pickLatest_mem {l : List Session} {s : Session}
    (h : pickLatest l = some s) : s ∈ l := by
  induction l with
  | nil => exact absurd h (by simp [pickLatest])
  | cons a rest ih =>
      rw [pickLatest] at h
      cases hr : pickLatest rest with
      | none =>
          rw [hr] at h
          injection h with h
          exact h ▸ List.mem_cons_self a rest
      | some best =>
          rw [hr] at h
          dsimp only at h
          by_cases hc : best.createdAt ≤ a.createdAt
          · rw [if_pos hc] at h
            injection h with h
            exact h ▸ List.mem_cons_self a rest
          · rw [if_neg hc] at h
            injection h with h
            exact List.mem_cons_of_mem a (ih (h ▸ hr))

/-- Claim C8, counterexample. The digest of the presented token matches no
stored session hash, yet the middleware accepts the request: the session is
found by the user id decoded from the JWT, not by the hash of the presented
token, so the decision does not depend on the specific token via its
hash. -/
theorem verify_accepts_token_with_unmatched_hash :
    (sessionStateA.sessions.map Session.tokenHash).contains
      (hashToken presentedToken) = false ∧
    (verifyTokenStep sessionStateA presentedToken 50).1 =
      .ok 7 "7523169263" "Ivan Petrov" :=
  ⟨rfl, rfl⟩

/-- Claim C8 as amended. Session verification keys on the user id decoded from
the JWT: two tokens decoding to the same user id are treated identically
(the stored token hash is never consulted); the request is rejected when
every session of that user is expired; and a success returns the decoded
user id together with the name fields of that user's active row. -/
theorem verifyToken_keyed_by_decoded_userId
    (st : AuthState) (t1 t2 : Token) (now : Nat) (h : t1.userId = t2.userId) :
    verifyTokenStep st t1 now = verifyTokenStep st t2 now ∧
    ((∀ s ∈ st.sessions, s.userId = t1.userId → s.expiresAt ≤ now) →
      (verifyTokenStep st t1 now).1 = .sessionExpired) ∧
    (∀ uid egn fn, (verifyTokenStep st t1 now).1 = .ok uid egn fn →
      uid = t1.userId ∧ lookupUser st t1.userId = some ⟨true, egn, fn⟩) := by
  refine ⟨by simp only [verifyTokenStep, h], ?_, ?_⟩
  · intro hexp
    have hnil : sessionCandidates st t1.userId now = [] := by
      rw [sessionCandidates, List.filter_eq_nil_iff]
      intro s hs
      by_cases hu : s.userId = t1.userId
      · have hle := hexp s hs hu
        simp [hu, Nat.not_lt.mpr hle]
      · simp [hu]
    simp [verifyTokenStep, hnil, pickLatest]
  · intro uid egn fn hok
    unfold verifyTokenStep at hok
    cases hp : pickLatest (sessionCandidates st t1.userId now) with
    | none => rw [hp] at hok; exact absurd hok (by simp)
    | some sess =>
        rw [hp] at hok
        dsimp only at hok
        have hmem := pickLatest_mem hp
        rw [sessionCandidates, List.mem_filter] at hmem
        have huid : sess.userId = t1.userId := by
          have := hmem.2
          simp only [Bool.and_eq_true, beq_iff_eq] at this
          exact this.1.1
        cases hu : lookupUser st sess.userId with
        | none => rw [hu] at hok; exact absurd hok (by simp)
        | some u =>
            rw [hu] at hok
            dsimp only at hok
            by_cases hia : u.isActive = false
            · rw [if_pos hia] at hok; exact absurd hok (by simp)
            · rw [if_neg hia] at hok
              have hia' : u.isActive = true := by
                cases hb : u.isActive
                · exact absurd hb hia
                · rfl
              simp only [Prod.fst, VerifyOutcome.ok.injEq] at hok
              obtain ⟨h1, h2, h3⟩ := hok
              refine ⟨h1.symm, ?_⟩
              rw [← huid, hu, ← h2, ← h3, ← hia']

/-- The character of a decimal digit is a digit character with the expected
code point. -/
theorem char_ofNat_digit (d : Nat) (hd : d < 10) :
    (Char.ofNat (48 + d)).isDigit = true ∧ (Char.ofNat (48 + d)).toNat = 48 + d := by
  interval_cases d <;> exact ⟨rfl, rfl⟩

/-- Claim C9. Round trip of the EGN validator: every string it accepts has
ten digits whose weighted mod-11 checksum (remainder 10 mapped to 0) over
the first nine digits equals the tenth digit, and replacing the check digit
by any different digit yields a string the validator rejects. -/
theorem validateEGN_roundtrip (egn : String) (ds : List Nat)
    (hds : egnDigits egn = some ds) (hv : validateEGN egn = true) :
    egnChecksum ds = ds.getD 9 0 ∧
    ∀ d : Nat, d < 10 → d ≠ ds.getD 9 0 →
      validateEGN (setCheckDigit egn d) = false := by
  have hds0 := hds
  rw [egnDigits] at hds
  split at hds
  case isFalse => exact absurd hds (by simp)
  case isTrue hc =>
    injection hds with hds
    simp only [Bool.and_eq_true, beq_iff_eq, List.all_eq_true] at hc
    obtain ⟨hl, hall⟩ := hc
    have hcheck : egnChecksum ds = ds.getD 9 0 := by
      unfold validateEGN at hv
      rw [hds0] at hv
      dsimp only at hv
      simpa only [beq_iff_eq] using hv
    refine ⟨hcheck, ?_⟩
    intro d hd hne
    have hdsl : ds.length = 10 := by rw [← hds, List.length_map, hl]
    have htake9 : (egn.toList.take 9).length = 9 := by
      rw [List.length_take, hl]
      omega
    have hnewlist : (setCheckDigit egn d).toList =
        egn.toList.take 9 ++ [Char.ofNat (48 + d)] := rfl
    have hnewlen : (setCheckDigit egn d).toList.length = 10 := by
      rw [hnewlist, List.length_append, htake9]
      rfl
    have hnewall : ∀ c ∈ (setCheckDigit egn d).toList, c.isDigit = true := by
      intro c hcmem
      rw [hnewlist, List.mem_append] at hcmem
      rcases hcmem with hcm | hcm
      · exact hall c (List.take_subset 9 egn.toList hcm)
      · rw [List.mem_singleton] at hcm
        rw [hcm]
        exact (char_ofNat_digit d hd).1
    have hnewdigits : egnDigits (setCheckDigit egn d) = some (ds.take 9 ++ [d]) := by
      rw [egnDigits]
      rw [if_pos]
      · congr 1
        rw [hnewlist, List.map_append, List.map_take, hds]
        congr 1
        simp only [List.map_cons, List.map_nil]
        rw [(char_ofNat_digit d hd).2]
        simp
      · simp only [Bool.and_eq_true, beq_iff_eq, List.all_eq_true]
        exact ⟨hnewlen, hnewall⟩
    have hlen9 : (ds.take 9).length = 9 := by
      rw [List.length_take, hdsl]
      omega
    have htakeappend : (ds.take 9 ++ [d]).take 9 = ds.take 9 := by
      have := List.take_left (ds.take 9) [d]
      rwa [hlen9] at this
    have hchecksame : egnChecksum (ds.take 9 ++ [d]) = egnChecksum ds := by
      rw [egnChecksum, egnChecksum, htakeappend]
    have hgetD : (ds.take 9 ++ [d]).getD 9 0 = d := by
      rw [List.getD_append_right (ds.take 9) [d] 0 9 (le_of_eq hlen9), hlen9]
      rfl
    unfold validateEGN
    rw [hnewdigits]
    dsimp only
    rw [hchecksame, hgetD, hcheck]
    simp only [beq_eq_false_iff_ne, ne_eq]
    exact Ne.symm hne

/-- Witness for C9: the accepted EGN `0000000000` (checksum 0); replacing
its check digit by 5 is rejected. -/
theorem validateEGN_roundtrip_witness :
    egnDigits "0000000000" = some [0, 0, 0, 0, 0, 0, 0, 0, 0, 0] ∧
    validateEGN "0000000000" = true ∧
    egnChecksum [0, 0, 0, 0, 0, 0, 0, 0, 0, 0] =
      [0, 0, 0, 0, 0, 0, 0, 0, 0, 0].getD 9 0 ∧
    validateEGN (setCheckDigit "0000000000" 5) = false :=
  ⟨by decide, by decide,
   (validateEGN_roundtrip "0000000000" [0, 0, 0, 0, 0, 0, 0, 0, 0, 0]
      (by decide) (by decide)).1,
   (validateEGN_roundtrip "0000000000" [0, 0, 0, 0, 0, 0, 0, 0, 0, 0]
      (by decide) (by decide)).2 5 (by decide) (by decide)⟩

/-- Witness for the amended C8: state `sessionStateA`, the stored-hash
token and the presented token of user 7, at time 50. -/
theorem verifyToken_keyed_by_decoded_userId_witness :
    verifyTokenStep sessionStateA ⟨7, 1⟩ 50 =
      verifyTokenStep sessionStateA presentedToken 50 ∧
    ((∀ s ∈ sessionStateA.sessions, s.userId = 7 → s.expiresAt ≤ 50) →
      (verifyTokenStep sessionStateA ⟨7, 1⟩ 50).1 = .sessionExpired) ∧
    (∀ uid egn fn, (verifyTokenStep sessionStateA ⟨7, 1⟩ 50).1 = .ok uid egn fn →
      uid = 7 ∧ lookupUser sessionStateA 7 = some ⟨true, egn, fn⟩) :=
  verifyToken_keyed_by_decoded_userId sessionStateA ⟨7, 1⟩ presentedToken 50 rfl

end EasyPay
